import Mathlib

/-!
Verification of the WhatsApp webhook server (webhook_server.py).

The development shallowly embeds the request-path functions of the source:

* `verify_signature` — HMAC-SHA256 signature check of the raw POST body
  (the SHA-256 and HMAC primitives are implemented executably below, words
  as `Nat` reduced modulo 2^32, bytes as `Nat` below 256);
* `verify_webhook` — the GET handshake;
* `webhook_handler` — the POST update receiver, with Python dict/list
  access modelled in an `Except` monad so that `KeyError`-free `get`
  defaults, `IndexError` on `[0]`, and `AttributeError` on non-dict
  `.get` are all visible;
* `process_message` — the per-message command processor, whose internal
  try/except is modelled by discarding the `Except` error.

Python truthiness of optional strings (`if not signature`, `if mode and
token`) is modelled exactly: `none` and `some ""` are both falsy.
Network sends are modelled by returning the list of (recipient, text)
pairs the code would send.
-/

/-! ## SHA-256 (FIPS 180-4), executable on byte lists -/

/-- Reduce to a 32-bit word. -/
def m32 (x : Nat) : Nat := x % 4294967296

/-- Right rotation of a 32-bit word. -/
def rotr (n x : Nat) : Nat := m32 ((x >>> n) ||| (x <<< (32 - n)))

/-- SHA-256 Ch function. -/
def ch (x y z : Nat) : Nat := (x &&& y) ^^^ ((x ^^^ 4294967295) &&& z)

/-- SHA-256 Maj function. -/
def maj (x y z : Nat) : Nat := (x &&& y) ^^^ (x &&& z) ^^^ (y &&& z)

/-- SHA-256 Σ0. -/
def bigSigma0 (x : Nat) : Nat := rotr 2 x ^^^ rotr 13 x ^^^ rotr 22 x

/-- SHA-256 Σ1. -/
def bigSigma1 (x : Nat) : Nat := rotr 6 x ^^^ rotr 11 x ^^^ rotr 25 x

/-- SHA-256 σ0. -/
def smallSigma0 (x : Nat) : Nat := rotr 7 x ^^^ rotr 18 x ^^^ (x >>> 3)

/-- SHA-256 σ1. -/
def smallSigma1 (x : Nat) : Nat := rotr 17 x ^^^ rotr 19 x ^^^ (x >>> 10)

/-- The 64 SHA-256 round constants. -/
def sha256K : List Nat :=
  [1116352408, 1899447441, 3049323471, 3921009573,
   961987163, 1508970993, 2453635748, 2870763221,
   3624381080, 310598401, 607225278, 1426881987,
   1925078388, 2162078206, 2614888103, 3248222580,
   3835390401, 4022224774, 264347078, 604807628,
   770255983, 1249150122, 1555081692, 1996064986,
   2554220882, 2821834349, 2952996808, 3210313671,
   3336571891, 3584528711, 113926993, 338241895,
   666307205, 773529912, 1294757372, 1396182291,
   1695183700, 1986661051, 2177026350, 2456956037,
   2730485921, 2820302411, 3259730800, 3345764771,
   3516065817, 3600352804, 4094571909, 275423344,
   430227734, 506948616, 659060556, 883997877,
   958139571, 1322822218, 1537002063, 1747873779,
   1955562222, 2024104815, 2227730452, 2361852424,
   2428436474, 2756734187, 3204031479, 3329325298]

/-- The eight-word SHA-256 working state. -/
structure Hash8 where
  a : Nat
  b : Nat
  c : Nat
  d : Nat
  e : Nat
  f : Nat
  g : Nat
  h : Nat
deriving DecidableEq, Repr

/-- The SHA-256 initial hash value. -/
def sha256H0 : Hash8 :=
  ⟨1779033703, 3144134277, 1013904242, 2773480762,
   1359893119, 2600822924, 528734635, 1541459225⟩

/-- Padding: append 128, zeros to 56 mod 64, then the bit length big-endian. -/
def padMessage (msg : List Nat) : List Nat :=
  let ml := 8 * msg.length
  let k := (64 + 56 - (msg.length + 1) % 64) % 64
  msg ++ [128] ++ List.replicate k 0 ++
    [(ml >>> 56) % 256, (ml >>> 48) % 256, (ml >>> 40) % 256, (ml >>> 32) % 256,
     (ml >>> 24) % 256, (ml >>> 16) % 256, (ml >>> 8) % 256, ml % 256]

/-- Big-endian 32-bit words from bytes, four at a time. -/
def toWords : List Nat → List Nat
  | a :: b :: c :: d :: rest =>
      (a * 16777216 + b * 65536 + c * 256 + d) :: toWords rest
  | _ => []

/-- Message-schedule extension: `acc` holds the words so far, newest first;
each step prepends `σ1 w2 + w7 + σ0 w15 + w16` (indices from the newest). -/
def extendLoop : Nat → List Nat → List Nat
  | 0, acc => acc.reverse
  | n + 1, acc =>
      let w := m32 (smallSigma1 (acc.getD 1 0) + acc.getD 6 0 +
                    smallSigma0 (acc.getD 14 0) + acc.getD 15 0)
      extendLoop n (w :: acc)

/-- The 64-entry message schedule from the 16 block words. -/
def schedule (ws16 : List Nat) : List Nat := extendLoop 48 ws16.reverse

/-- One SHA-256 compression round. -/
def sha256Round (st : Hash8) (k w : Nat) : Hash8 :=
  let t1 := m32 (st.h + bigSigma1 st.e + ch st.e st.f st.g + k + w)
  let t2 := m32 (bigSigma0 st.a + maj st.a st.b st.c)
  ⟨m32 (t1 + t2), st.a, st.b, st.c, m32 (st.d + t1), st.e, st.f, st.g⟩

/-- Run the rounds over the zipped (constant, schedule word) list. -/
def roundsLoop : List (Nat × Nat) → Hash8 → Hash8
  | [], st => st
  | (k, w) :: rest, st => roundsLoop rest (sha256Round st k w)

/-- Compress one 64-byte block into the chaining state. -/
def compress (st : Hash8) (block : List Nat) : Hash8 :=
  let fin := roundsLoop (sha256K.zip (schedule (toWords block))) st
  ⟨m32 (st.a + fin.a), m32 (st.b + fin.b), m32 (st.c + fin.c), m32 (st.d + fin.d),
   m32 (st.e + fin.e), m32 (st.f + fin.f), m32 (st.g + fin.g), m32 (st.h + fin.h)⟩

/-- Fold `compress` over the 64-byte blocks; fuel bounds the recursion. -/
def processBlocks : Nat → List Nat → Hash8 → Hash8
  | 0, _, st => st
  | fuel + 1, bytes, st =>
      if bytes.isEmpty then st
      else processBlocks fuel (bytes.drop 64) (compress st (bytes.take 64))

/-- Big-endian bytes of a 32-bit word. -/
def wordBytes (x : Nat) : List Nat :=
  [(x >>> 24) % 256, (x >>> 16) % 256, (x >>> 8) % 256, x % 256]

/-- SHA-256 digest (32 bytes) of a byte list. -/
def sha256 (msg : List Nat) : List Nat :=
  let p := padMessage msg
  let st := processBlocks p.length p sha256H0
  wordBytes st.a ++ wordBytes st.b ++ wordBytes st.c ++ wordBytes st.d ++
  wordBytes st.e ++ wordBytes st.f ++ wordBytes st.g ++ wordBytes st.h

/-! ## HMAC-SHA256 (RFC 2104) -/

/-- HMAC-SHA256 of a message under a key, both byte lists. -/
def hmacSha256 (key msg : List Nat) : List Nat :=
  let k0 := if key.length > 64 then sha256 key else key
  let k1 := k0 ++ List.replicate (64 - k0.length) 0
  let ipadKey := k1.map (fun b => b ^^^ 54)
  let opadKey := k1.map (fun b => b ^^^ 92)
  sha256 (opadKey ++ sha256 (ipadKey ++ msg))

/-- Lowercase hex digit for a value below 16. -/
def hexDigitChar (d : Nat) : Char :=
  if d < 10 then Char.ofNat (48 + d) else Char.ofNat (87 + d)

/-- Two lowercase hex digits of a byte. -/
def byteHex (b : Nat) : List Char := [hexDigitChar (b / 16 % 16), hexDigitChar (b % 16)]

/-- Lowercase hex string of a byte list, as Python hexdigest produces. -/
def bytesToHex (bs : List Nat) : String := ⟨(bs.map byteHex).flatten⟩

/-! ## Configuration and verify_signature -/

/-- Process configuration read from the environment. `appSecret` is
WHATSAPP_APP_SECRET already UTF-8 encoded to bytes (`none` when the
variable is unset); `verifyToken` is WHATSAPP_VERIFY_TOKEN. -/
structure Config where
  appSecret : Option (List Nat)
  verifyToken : Option String
deriving DecidableEq

/-- Every character of the string is in the ASCII range. -/
def asciiOnly (s : String) : Bool := s.data.all (fun c => c.toNat < 128)

/-- hmac.compare_digest on two str arguments: when both are pure ASCII it
is equality of the strings (its timing-safety is not an input/output
property); when either contains a non-ASCII character it raises
TypeError instead of returning a Boolean. -/
def compare_digest (a b : String) : Except String Bool :=
  if asciiOnly a && asciiOnly b then Except.ok (a == b)
  else Except.error "TypeError"

/-- verify_signature from the source: fail closed with False when the
secret is unset or empty (`if not app_secret`), else compare the header
against "sha256=" ++ the lowercase hex HMAC-SHA256 digest of the
payload. The comparison is hmac.compare_digest, so a non-ASCII signature
string makes the call raise TypeError rather than return False. -/
def verify_signature (cfg : Config) (payload : List Nat) (signature : String) :
    Except String Bool :=
  match cfg.appSecret with
  | none => Except.ok false
  | some key =>
      if key = [] then Except.ok false
      else compare_digest signature ("sha256=" ++ bytesToHex (hmacSha256 key payload))

/-! ## Python JSON values and dict/list access

json.loads yields dicts (string keys), lists, strings, numbers, booleans
and null. Operations that can raise in Python return `Except String`,
with the error string naming the Python exception class. -/

/-- A parsed JSON value as Python represents it. -/
inductive J where
  | null : J
  | bool : Bool → J
  | num : Int → J
  | str : String → J
  | arr : List J → J
  | obj : List (String × J) → J

/-- Python `v == s` for a string literal `s`: only a string can compare
equal to a string; every other type compares unequal, without error. -/
def jEqStr (v : J) (s : String) : Bool :=
  match v with
  | J.str t => t == s
  | _ => false

/-- Python dict.get(key, default): only dicts have `.get`; any other
receiver raises AttributeError. A present key returns its value, even
`null`. -/
def pyGet (v : J) (k : String) (dflt : J) : Except String J :=
  match v with
  | J.obj fields => Except.ok ((fields.lookup k).getD dflt)
  | _ => Except.error "AttributeError"

/-- Python `x[0]`: first element of a list or string, IndexError when it
is empty; KeyError on a dict (JSON dict keys are strings, never 0);
TypeError otherwise. -/
def pyIndex0 (v : J) : Except String J :=
  match v with
  | J.arr [] => Except.error "IndexError"
  | J.arr (x :: _) => Except.ok x
  | J.str s =>
      match s.data with
      | [] => Except.error "IndexError"
      | c :: _ => Except.ok (J.str (String.singleton c))
  | J.obj _ => Except.error "KeyError"
  | _ => Except.error "TypeError"

/-- Python iteration: lists yield elements, strings yield characters,
dicts yield their keys; anything else raises TypeError. -/
def pyIter (v : J) : Except String (List J) :=
  match v with
  | J.arr l => Except.ok l
  | J.str s => Except.ok (s.data.map (fun c => J.str (String.singleton c)))
  | J.obj fields => Except.ok (fields.map (fun p => J.str p.1))
  | _ => Except.error "TypeError"

/-- ASCII lowercasing of one character, as str.lower acts on the ASCII
range (the command literals are pure ASCII). -/
def asciiLowerChar (c : Char) : Char :=
  if 65 ≤ c.toNat ∧ c.toNat ≤ 90 then Char.ofNat (c.toNat + 32) else c

/-- str.lower on the ASCII range. -/
def asciiLower (s : String) : String := ⟨s.data.map asciiLowerChar⟩

/-- Python `x.lower()`: defined on strings, AttributeError otherwise. -/
def pyLower (v : J) : Except String String :=
  match v with
  | J.str s => Except.ok (asciiLower s)
  | _ => Except.error "AttributeError"

/-! ## The command processor -/

/-- The fixed reply to the "status" command. -/
def statusReply : String :=
  "WhatsApp webhook is running. Use \x27help\x27 to see available commands."

/-- The fixed reply to the "help" command. -/
def helpReply : String :=
  "Available Commands:\n• status - Check webhook status\n• help - Show this help message"

/-- The body of process_message before its try/except: extract `type`;
for text messages extract `text.body` (empty-dict and empty-string
defaults), then `from`, lowercase the body and dispatch the two
commands. The returned list holds the (recipient, text) sends performed. -/
def process_message_core (message : J) : Except String (List (J × String)) := do
  let mtype ← pyGet message "type" J.null
  if jEqStr mtype "text" then
    let tfield ← pyGet message "text" (J.obj [])
    let bodyJ ← pyGet tfield "body" (J.str "")
    let fromNumber ← pyGet message "from" J.null
    let text ← pyLower bodyJ
    if text = "status" then
      pure [(fromNumber, statusReply)]
    else if text = "help" then
      pure [(fromNumber, helpReply)]
    else
      pure []
  else
    pure []

/-- process_message: the catch-all except swallows any error, so the
caller always receives the (possibly empty) list of sends. -/
def process_message (message : J) : List (J × String) :=
  match process_message_core message with
  | Except.ok sends => sends
  | Except.error _ => []

/-! ## The POST update receiver -/

/-- Concatenation of the per-message send lists, in batch order. -/
def concatAll : List (List α) → List α
  | [] => []
  | l :: ls => l ++ concatAll ls

/-- An HTTP response: status code and body content. -/
structure HttpResponse where
  status : Nat
  content : String
deriving DecidableEq

/-- A POST request as the handler consumes it: the optional
X-Hub-Signature-256 header, the raw body bytes, and the result of
json.loads on those bytes (the JSON library is external; a parse
failure is the exception the outer handler turns into a 500). -/
structure PostRequest where
  signature : Option String
  body : List Nat
  parse : Except String J

/-- Lines 95-107 of the source: json.loads, then
`update.get('entry', [{}])[0]`, `entry.get('changes', [{}])[0]`, the
`field == 'messages'` guard with `value`/`messages` defaults, and the
dispatch loop. Errors abort with the exception; sends happen only after
every fallible step, so an aborted run performed no send. -/
def handler_core (parsed : Except String J) : Except String (List (J × String)) := do
  let update ← parsed
  let entry ← pyIndex0 (← pyGet update "entry" (J.arr [J.obj []]))
  let changes ← pyIndex0 (← pyGet entry "changes" (J.arr [J.obj []]))
  let field ← pyGet changes "field" J.null
  if jEqStr field "messages" then
    let value ← pyGet changes "value" (J.obj [])
    let messagesV ← pyGet value "messages" (J.arr [])
    let messages ← pyIter messagesV
    pure (concatAll (messages.map process_message))
  else
    pure []

/-- Map the core result to the HTTP response of the try/except: 200 on
success, 500 (with no sends, see `handler_core`) on any exception. -/
def respond : Except String (List (J × String)) → HttpResponse × List (J × String)
  | Except.ok sends => (⟨200, ""⟩, sends)
  | Except.error _ => (⟨500, ""⟩, [])

/-- webhook_handler: `if not signature` (absent or empty header) → 403
"No signature"; a TypeError raised inside verify_signature reaches the
outer except → 500; failed verification of the raw body → 403 "Invalid
signature"; otherwise parse and dispatch. Paired with each response is
the list of sends the request performed. -/
def webhook_handler (cfg : Config) (req : PostRequest) : HttpResponse × List (J × String) :=
  match req.signature with
  | none => (⟨403, "No signature"⟩, [])
  | some sig =>
      if sig = "" then (⟨403, "No signature"⟩, [])
      else
        match verify_signature cfg req.body sig with
        | Except.error _ => (⟨500, ""⟩, [])
        | Except.ok true => respond (handler_core req.parse)
        | Except.ok false => (⟨403, "Invalid signature"⟩, [])

/-! ## The GET handshake -/

/-- A GET verification request: the three optional query parameters. -/
structure GetRequest where
  mode : Option String
  token : Option String
  challenge : Option String
deriving DecidableEq

/-- Python truthiness of an optional string: `none` and `""` are falsy. -/
def truthyStr : Option String → Bool
  | none => false
  | some s => !(s == "")

/-- verify_webhook: inside `if mode and token`, the subscribe/token match
returns 200 with the challenge verbatim (empty when absent), a mismatch
returns 403 with empty body; otherwise the function falls through and
returns no explicit response (`none`). Nothing in the body can raise, so
the except-500 branch of the source is unreachable. -/
def verify_webhook (cfg : Config) (req : GetRequest) : Option HttpResponse :=
  if truthyStr req.mode ∧ truthyStr req.token then
    if req.mode = some "subscribe" ∧ req.token = cfg.verifyToken then
      some ⟨200, (req.challenge).getD ""⟩
    else
      some ⟨403, ""⟩
  else
    none

/-! ## Canonical request shapes used by the theorems -/

/-- The expected signature header value the source computes:
"sha256=" followed by the lowercase hex HMAC-SHA256 digest. -/
def goodSig (key body : List Nat) : String :=
  "sha256=" ++ bytesToHex (hmacSha256 key body)

/-- A change object carrying a list of messages. -/
def messagesChange (msgs : List J) : J :=
  J.obj [("field", J.str "messages"), ("value", J.obj [("messages", J.arr msgs)])]

/-- The canonical one-entry, one-change notification envelope. -/
def messagesEnvelope (msgs : List J) : J :=
  J.obj [("entry", J.arr [J.obj [("changes", J.arr [messagesChange msgs])]])]

/-- The example text message of the spec: type text, sender "123",
body "Status". -/
def statusMessage : J :=
  J.obj [("type", J.str "text"), ("from", J.str "123"),
         ("text", J.obj [("body", J.str "Status")])]

/-! ## Helper lemmas -/

theorem concatAll_append (l1 l2 : List (List α)) :
    concatAll (l1 ++ l2) = concatAll l1 ++ concatAll l2 := by
  induction l1 with
  | nil => rfl
  | cons x xs ih => simp [concatAll, ih]

theorem hexDigitChar_toNat_lt (d : Nat) (hd : d < 16) :
    (hexDigitChar d).toNat < 128 := by
  interval_cases d <;> decide

theorem bytesToHex_ascii (bs : List Nat) : asciiOnly (bytesToHex bs) = true := by
  show ((bs.map byteHex).flatten).all (fun c => c.toNat < 128) = true
  induction bs with
  | nil => rfl
  | cons b rest ih =>
      rw [List.map_cons, List.flatten_cons, List.all_append, ih, Bool.and_true]
      have h1 := hexDigitChar_toNat_lt (b / 16 % 16) (Nat.mod_lt _ (by norm_num))
      have h2 := hexDigitChar_toNat_lt (b % 16) (Nat.mod_lt _ (by norm_num))
      simp [byteHex, h1, h2]

theorem goodSig_ascii (key body : List Nat) : asciiOnly (goodSig key body) = true := by
  have h := bytesToHex_ascii (hmacSha256 key body)
  unfold asciiOnly at h
  show (goodSig key body).data.all (fun c => c.toNat < 128) = true
  rw [goodSig, String.data_append, List.all_append, h, Bool.and_true]
  decide

theorem verify_signature_good (cfg : Config) (key : List Nat)
    (hcfg : cfg.appSecret = some key) (hk : key ≠ []) (body : List Nat) :
    verify_signature cfg body (goodSig key body) = Except.ok true := by
  have ha := goodSig_ascii key body
  rw [goodSig] at ha
  simp [verify_signature, hcfg, hk, goodSig, compare_digest, ha]

theorem goodSig_ne_empty (key body : List Nat) : goodSig key body ≠ "" := by
  intro h
  have hlen := congrArg String.length h
  rw [goodSig, String.length_append] at hlen
  have h7 : ("sha256=" : String).length = 7 := rfl
  rw [h7] at hlen
  simp at hlen

theorem webhook_handler_valid (cfg : Config) (key : List Nat)
    (hcfg : cfg.appSecret = some key) (hk : key ≠ []) (body : List Nat)
    (parse : Except String J) :
    webhook_handler cfg ⟨some (goodSig key body), body, parse⟩
      = respond (handler_core parse) := by
  unfold webhook_handler
  simp [goodSig_ne_empty key body, verify_signature_good cfg key hcfg hk body]

/-- The core of process_message on a well-formed text record reduces to
the two-command dispatch on the lowercased body. -/
theorem process_message_core_text (f : J) (b : String) :
    process_message_core
        (J.obj [("type", J.str "text"), ("from", f), ("text", J.obj [("body", J.str b)])])
      = (if asciiLower b = "status" then Except.ok [(f, statusReply)]
         else if asciiLower b = "help" then Except.ok [(f, helpReply)]
         else Except.ok []) := rfl

/-! ## Claim theorems -/

/-- C1 counterexample: with secret [1] and empty body, the non-ASCII
signature string "\u00e9" makes hmac.compare_digest raise TypeError
instead of returning False — the POST handler answers 500, not 403 — so
verify_signature does not return false for every other signature
string. -/
theorem verify_signature_nonascii_counterexample :
    verify_signature ⟨some [1], none⟩ [] "\u00e9" = Except.error "TypeError" ∧
    (Except.error "TypeError" : Except String Bool) ≠ Except.ok false ∧
    webhook_handler ⟨some [1], none⟩ ⟨some "\u00e9", [], Except.error "parse"⟩
      = (⟨500, ""⟩, []) :=
  ⟨rfl, fun h => Except.noConfusion h, rfl⟩

/-- C1 amended: with a configured non-empty secret, verify_signature
returns true exactly for the signature "sha256=" ++ the lowercase hex
HMAC-SHA256 digest of the body; it returns false for every other ASCII
signature string, and for the original signature once the body digest
differs; a signature containing a non-ASCII character instead raises
TypeError. -/
theorem verify_signature_ascii_dichotomy (cfg : Config) (key : List Nat)
    (hcfg : cfg.appSecret = some key) (hk : key ≠ []) (payload : List Nat) :
    (∀ s : String, asciiOnly s = true →
        (verify_signature cfg payload s = Except.ok true ↔ s = goodSig key payload)) ∧
    (∀ s : String, asciiOnly s = true → s ≠ goodSig key payload →
        verify_signature cfg payload s = Except.ok false) ∧
    (∀ s : String, asciiOnly s = false →
        verify_signature cfg payload s = Except.error "TypeError") ∧
    (∀ payload2 : List Nat,
        bytesToHex (hmacSha256 key payload2) ≠ bytesToHex (hmacSha256 key payload) →
        verify_signature cfg payload2 (goodSig key payload) = Except.ok false) := by
  have heval : ∀ (p : List Nat) (s : String), asciiOnly s = true →
      verify_signature cfg p s = Except.ok (s == goodSig key p) := by
    intro p s hs
    have ha := goodSig_ascii key p
    rw [goodSig] at ha
    simp [verify_signature, hcfg, hk, compare_digest, goodSig, hs, ha]
  refine ⟨?_, ?_, ?_, ?_⟩
  · intro s hs
    rw [heval payload s hs]
    simp
  · intro s hs hne
    rw [heval payload s hs]
    simp [hne]
  · intro s hs
    simp [verify_signature, hcfg, hk, compare_digest, hs]
  · intro payload2 hne
    rw [heval payload2 _ (goodSig_ascii key payload)]
    simp only [Except.ok.injEq, beq_eq_false_iff_ne, ne_eq]
    intro h
    rw [goodSig, goodSig] at h
    have hdata := congrArg String.data h
    simp only [String.data_append] at hdata
    exact hne (String.ext (List.append_cancel_left hdata)).symm

/-- C1 witness: at secret bytes [1, 2] and body [3, 4], the correctly
formed signature is accepted. -/
theorem verify_signature_ascii_dichotomy_witness :
    verify_signature ⟨some [1, 2], none⟩ [3, 4] (goodSig [1, 2] [3, 4])
      = Except.ok true :=
  ((verify_signature_ascii_dichotomy ⟨some [1, 2], none⟩ [1, 2] rfl
    (by decide) [3, 4]).1 (goodSig [1, 2] [3, 4])
      (goodSig_ascii [1, 2] [3, 4])).mpr rfl

set_option maxRecDepth 100000 in
/-- C2 counterexample: with a configured secret, a POST whose
X-Hub-Signature-256 header is present but empty fails verification, yet
the response body is "No signature", not the "Invalid signature" the
claim requires for a present header failing verification. -/
theorem post_empty_header_counterexample :
    verify_signature ⟨some [1], none⟩ [] "" = Except.ok false ∧
    webhook_handler ⟨some [1], none⟩ ⟨some "", [], Except.error "parse"⟩
      = (⟨403, "No signature"⟩, []) ∧
    HttpResponse.mk 403 "No signature" ≠ HttpResponse.mk 403 "Invalid signature" := by
  refine ⟨rfl, rfl, by decide⟩

/-- C2 amended: an absent or empty signature header yields 403 "No
signature"; a present non-empty header failing verification yields 403
"Invalid signature"; in every case the parse result is irrelevant and
zero sends are invoked. -/
theorem post_auth_failure_responses (cfg : Config) (body : List Nat)
    (parse : Except String J) :
    (webhook_handler cfg ⟨none, body, parse⟩ = (⟨403, "No signature"⟩, [])) ∧
    (webhook_handler cfg ⟨some "", body, parse⟩ = (⟨403, "No signature"⟩, [])) ∧
    (∀ sig : String, sig ≠ "" → verify_signature cfg body sig = Except.ok false →
        webhook_handler cfg ⟨some sig, body, parse⟩ = (⟨403, "Invalid signature"⟩, [])) := by
  refine ⟨rfl, rfl, ?_⟩
  intro sig hne hv
  unfold webhook_handler
  simp [hne, hv]

set_option maxRecDepth 100000 in
/-- C2 witness: a wrong non-empty signature over an empty body with
secret [1] is answered 403 "Invalid signature" with zero sends. -/
theorem post_auth_failure_responses_witness :
    webhook_handler ⟨some [1], none⟩ ⟨some "x", [], Except.error "parse"⟩
      = (⟨403, "Invalid signature"⟩, []) :=
  (post_auth_failure_responses ⟨some [1], none⟩ [] (Except.error "parse")).2.2
    "x" (by decide) rfl

/-- C5: with the secret unset (or set to the empty string, which the
source treats as unset), verify_signature returns False for every
payload and signature — the result is Except.ok false, never an
exception, because the fail-closed return precedes the only fallible
operation (compare_digest). -/
theorem verify_signature_no_secret_false (cfg : Config)
    (h : cfg.appSecret = none ∨ cfg.appSecret = some [])
    (payload : List Nat) (s : String) :
    verify_signature cfg payload s = Except.ok false := by
  rcases h with h | h <;> simp [verify_signature, h]

/-- C5 witness: under an absent secret, even a syntactically plausible
signature is rejected. -/
theorem verify_signature_no_secret_false_witness :
    verify_signature ⟨none, none⟩ [1, 2, 3] "sha256=abc" = Except.ok false :=
  verify_signature_no_secret_false ⟨none, none⟩ (Or.inl rfl) [1, 2, 3] "sha256=abc"

/-- C4 counterexample: with hub.mode present but empty and
hub.verify_token present and matching the configured token, the
handler falls through and returns no response at all, where the claim
requires a 403 (mode differs from "subscribe") — so "present" alone is
not enough for the claimed dichotomy. -/
theorem handshake_empty_mode_counterexample :
    verify_webhook ⟨none, some "tok"⟩ ⟨some "", some "tok", some "ch"⟩ = none ∧
    (none : Option HttpResponse) ≠ some ⟨403, ""⟩ ∧
    (none : Option HttpResponse) ≠ some ⟨200, "ch"⟩ := by
  refine ⟨rfl, by decide, by decide⟩

/-- C4 amended: for a GET whose hub.mode and hub.verify_token are both
present and non-empty, a subscribe mode with the matching configured
token is answered 200 with the challenge verbatim, and anything else is
answered 403 with empty body. -/
theorem handshake_present_nonempty_responses (cfg : Config) (m t c : String)
    (hm : m ≠ "") (ht : t ≠ "") :
    verify_webhook cfg ⟨some m, some t, some c⟩ =
      (if m = "subscribe" ∧ some t = cfg.verifyToken
       then some ⟨200, c⟩ else some ⟨403, ""⟩) := by
  simp [verify_webhook, truthyStr, hm, ht]

/-- C4 witness: a subscribe handshake against configured token "tok"
echoes the challenge "abc123" with status 200. -/
theorem handshake_present_nonempty_responses_witness :
    verify_webhook ⟨none, some "tok"⟩ ⟨some "subscribe", some "tok", some "abc123"⟩
      = some ⟨200, "abc123"⟩ :=
  (handshake_present_nonempty_responses ⟨none, some "tok"⟩ "subscribe" "tok" "abc123"
    (by decide) (by decide)).trans (by decide)

/-- C10: when hub.mode or hub.verify_token is absent, verify_webhook
takes neither the 200 branch nor the 403 branch: it falls through and
returns no explicit response. -/
theorem handshake_missing_param_falls_through (cfg : Config) (req : GetRequest)
    (h : req.mode = none ∨ req.token = none) :
    verify_webhook cfg req = none := by
  unfold verify_webhook
  rcases h with h | h <;> simp [h, truthyStr]

/-- C10 witness: a GET with no hub.mode falls through. -/
theorem handshake_missing_param_falls_through_witness :
    verify_webhook ⟨none, some "tok"⟩ ⟨none, some "tok", some "ch"⟩ = none :=
  handshake_missing_param_falls_through ⟨none, some "tok"⟩
    ⟨none, some "tok", some "ch"⟩ (Or.inl rfl)

@[simp] theorem except_ok_bind (a : α) (f : α → Except ε β) :
    (Except.ok a >>= f) = f a := rfl

@[simp] theorem except_error_bind (e : ε) (f : α → Except ε β) :
    ((Except.error e : Except ε α) >>= f) = Except.error e := rfl

/-- C3: a text record whose lowercased body is "status" or "help"
produces exactly the one corresponding send to its `from` field; any
other text body produces none; a record whose type is not "text"
(including records that are not dicts, where `.get` raises and the
internal except swallows it) produces none; and every record produces at
most one send. -/
theorem process_message_command_dispatch :
    (∀ (f : J) (b : String), asciiLower b = "status" →
        process_message (J.obj [("type", J.str "text"), ("from", f),
            ("text", J.obj [("body", J.str b)])]) = [(f, statusReply)]) ∧
    (∀ (f : J) (b : String), asciiLower b = "help" →
        process_message (J.obj [("type", J.str "text"), ("from", f),
            ("text", J.obj [("body", J.str b)])]) = [(f, helpReply)]) ∧
    (∀ (f : J) (b : String), asciiLower b ≠ "status" → asciiLower b ≠ "help" →
        process_message (J.obj [("type", J.str "text"), ("from", f),
            ("text", J.obj [("body", J.str b)])]) = []) ∧
    (∀ m : J, (∀ v, pyGet m "type" J.null = Except.ok v → jEqStr v "text" = false) →
        process_message m = []) ∧
    (∀ m : J, (process_message m).length ≤ 1) := by
  refine ⟨?_, ?_, ?_, ?_, ?_⟩
  · intro f b h
    simp [process_message, process_message_core_text, h]
  · intro f b h
    simp [process_message, process_message_core_text, h]
  · intro f b h1 h2
    simp [process_message, process_message_core_text, h1, h2]
  · intro m hm
    unfold process_message process_message_core
    cases hg : pyGet m "type" J.null with
    | error e => simp [hg]
    | ok v => simp [hg, hm v hg, pure, Except.pure]
  · intro m
    unfold process_message process_message_core
    cases h1 : pyGet m "type" J.null with
    | error e => simp [h1]
    | ok v =>
      by_cases h2 : jEqStr v "text" = true
      · cases h3 : pyGet m "text" (J.obj []) with
        | error e => simp [h1, h2, h3]
        | ok tf =>
          cases h4 : pyGet tf "body" (J.str "") with
          | error e => simp [h1, h2, h3, h4]
          | ok bj =>
            cases h5 : pyGet m "from" J.null with
            | error e => simp [h1, h2, h3, h4, h5]
            | ok fn =>
              cases h6 : pyLower bj with
              | error e => simp [h1, h2, h3, h4, h5, h6]
              | ok text =>
                by_cases h7 : text = "status"
                · simp [h1, h2, h3, h4, h5, h6, h7, pure, Except.pure]
                · by_cases h8 : text = "help" <;>
                    simp [h1, h2, h3, h4, h5, h6, h7, h8, pure, Except.pure]
      · simp [h1, h2, pure, Except.pure]

/-- C3 witness: the spec example — a text message from "123" with body
"Status" — yields exactly one send, to "123", with the fixed status
reply (the match is case-insensitive). -/
theorem process_message_command_dispatch_witness :
    process_message statusMessage = [(J.str "123", statusReply)] :=
  process_message_command_dispatch.1 (J.str "123") "Status" (by decide)

/-- C6: a message whose processing raises is swallowed by the except
inside process_message, so a batch containing it is still fully
processed — the sends of the surrounding messages all happen, the bad
message contributes none, and the POST is answered 200. -/
theorem process_error_isolated_batch_still_200 (cfg : Config) (key : List Nat)
    (hcfg : cfg.appSecret = some key) (hk : key ≠ []) (body : List Nat)
    (l1 l2 : List J) (bad : J) (e : String)
    (hbad : process_message_core bad = Except.error e) :
    webhook_handler cfg
        ⟨some (goodSig key body), body, Except.ok (messagesEnvelope (l1 ++ bad :: l2))⟩
      = (⟨200, ""⟩,
         concatAll (l1.map process_message) ++ concatAll (l2.map process_message)) := by
  rw [webhook_handler_valid cfg key hcfg hk body]
  have hcore : handler_core (Except.ok (messagesEnvelope (l1 ++ bad :: l2)))
      = Except.ok (concatAll ((l1 ++ bad :: l2).map process_message)) := rfl
  rw [hcore]
  have hpm : process_message bad = [] := by
    unfold process_message
    rw [hbad]
  simp [respond, List.map_append, concatAll_append, concatAll, hpm]

/-- C6 witness: a batch of one poison message (an integer record, whose
`.get` raises AttributeError) is answered 200 with zero sends. -/
theorem process_error_isolated_batch_still_200_witness :
    webhook_handler ⟨some [1], none⟩
        ⟨some (goodSig [1] []), [], Except.ok (messagesEnvelope [J.num 0])⟩
      = (⟨200, ""⟩, []) :=
  (process_error_isolated_batch_still_200 ⟨some [1], none⟩ [1] rfl (by decide)
    [] [] [] (J.num 0) "AttributeError" rfl).trans rfl

/-- C7: with a valid signature, only entry[0].changes[0] is consulted:
the response and sends coincide with those of the envelope truncated to
its first entry and first change; in particular, when the first change
is an empty object, message-bearing extra changes and entries produce
zero sends and the response is still 200. -/
theorem only_first_entry_first_change_consulted (cfg : Config) (key : List Nat)
    (hcfg : cfg.appSecret = some key) (hk : key ≠ []) (body : List Nat)
    (c0 : J) (cs es : List J) :
    (webhook_handler cfg ⟨some (goodSig key body), body,
        Except.ok (J.obj [("entry",
          J.arr (J.obj [("changes", J.arr (c0 :: cs))] :: es))])⟩
      = webhook_handler cfg ⟨some (goodSig key body), body,
        Except.ok (J.obj [("entry",
          J.arr [J.obj [("changes", J.arr [c0])]])])⟩) ∧
    (webhook_handler cfg ⟨some (goodSig key body), body,
        Except.ok (J.obj [("entry",
          J.arr (J.obj [("changes", J.arr (J.obj [] :: cs))] :: es))])⟩
      = (⟨200, ""⟩, [])) := by
  constructor
  · rw [webhook_handler_valid cfg key hcfg hk body,
        webhook_handler_valid cfg key hcfg hk body]
    rfl
  · rw [webhook_handler_valid cfg key hcfg hk body]
    rfl

/-- C7 witness: an envelope whose first change is empty but whose extra
change and extra entry both carry a status message is answered 200 with
zero sends — the extra positions are never consulted. -/
theorem only_first_entry_first_change_consulted_witness :
    webhook_handler ⟨some [1], none⟩ ⟨some (goodSig [1] []), [],
        Except.ok (J.obj [("entry", J.arr
          (J.obj [("changes", J.arr (J.obj [] :: [messagesChange [statusMessage]]))] ::
            [J.obj [("changes", J.arr [messagesChange [statusMessage]])]]))])⟩
      = (⟨200, ""⟩, []) :=
  (only_first_entry_first_change_consulted ⟨some [1], none⟩ [1] rfl (by decide) []
    (J.obj []) [messagesChange [statusMessage]]
    [J.obj [("changes", J.arr [messagesChange [statusMessage]])]]).2

/-- C8: with a valid signature, omitting any one of entry, changes,
field, value, or messages from an otherwise canonical envelope takes the
empty-default path: no exception, zero sends, response 200. -/
theorem missing_keys_default_200_no_sends (cfg : Config) (key : List Nat)
    (hcfg : cfg.appSecret = some key) (hk : key ≠ []) (body : List Nat) :
    (webhook_handler cfg ⟨some (goodSig key body), body,
        Except.ok (J.obj [])⟩ = (⟨200, ""⟩, [])) ∧
    (webhook_handler cfg ⟨some (goodSig key body), body,
        Except.ok (J.obj [("entry", J.arr [J.obj []])])⟩ = (⟨200, ""⟩, [])) ∧
    (webhook_handler cfg ⟨some (goodSig key body), body,
        Except.ok (J.obj [("entry", J.arr [J.obj [("changes",
          J.arr [J.obj []])]])])⟩ = (⟨200, ""⟩, [])) ∧
    (webhook_handler cfg ⟨some (goodSig key body), body,
        Except.ok (J.obj [("entry", J.arr [J.obj [("changes",
          J.arr [J.obj [("field", J.str "messages")]])]])])⟩ = (⟨200, ""⟩, [])) ∧
    (webhook_handler cfg ⟨some (goodSig key body), body,
        Except.ok (J.obj [("entry", J.arr [J.obj [("changes",
          J.arr [J.obj [("field", J.str "messages"),
                        ("value", J.obj [])]])]])])⟩ = (⟨200, ""⟩, [])) := by
  refine ⟨?_, ?_, ?_, ?_, ?_⟩ <;>
    (rw [webhook_handler_valid cfg key hcfg hk body]; rfl)

/-- C8 witness: a well-signed POST whose JSON body is the empty object
is answered 200 with zero sends. -/
theorem missing_keys_default_200_no_sends_witness :
    webhook_handler ⟨some [1], none⟩
        ⟨some (goodSig [1] []), [], Except.ok (J.obj [])⟩ = (⟨200, ""⟩, []) :=
  (missing_keys_default_200_no_sends ⟨some [1], none⟩ [1] rfl (by decide) []).1

/-- C9: with a valid signature, a present-but-empty entry list, or a
present-but-empty changes list in the first entry, makes the `[0]`
indexing raise IndexError, which the outer except turns into a 500 with
zero sends — unlike an absent key, which defaults. -/
theorem empty_entry_or_changes_list_500 (cfg : Config) (key : List Nat)
    (hcfg : cfg.appSecret = some key) (hk : key ≠ []) (body : List Nat) :
    (webhook_handler cfg ⟨some (goodSig key body), body,
        Except.ok (J.obj [("entry", J.arr [])])⟩ = (⟨500, ""⟩, [])) ∧
    (webhook_handler cfg ⟨some (goodSig key body), body,
        Except.ok (J.obj [("entry", J.arr [J.obj [("changes",
          J.arr [])]])])⟩ = (⟨500, ""⟩, [])) := by
  constructor <;> (rw [webhook_handler_valid cfg key hcfg hk body]; rfl)

/-- C9 witness: a well-signed POST whose body maps entry to the empty
list is answered 500 with zero sends. -/
theorem empty_entry_or_changes_list_500_witness :
    webhook_handler ⟨some [1], none⟩
        ⟨some (goodSig [1] []), [], Except.ok (J.obj [("entry", J.arr [])])⟩
      = (⟨500, ""⟩, []) :=
  (empty_entry_or_changes_list_500 ⟨some [1], none⟩ [1] rfl (by decide) []).1
